import Mathlib

/-!
Verification development for the burrow-infrastructure repository.

The repository consists of two Python lambda handlers:

* `src/terraform/lambda/eventbridge_dlq_handler.py` — a DLQ consumer that
  parses failed ingestion-task events and reports failure status to a
  management API via HTTP PATCH (embedded below in namespace `DLQHandler`);
* `src/lambdas/init-pgvector/src/index.py` — a one-shot initializer that
  enables the pgvector extension in a Postgres database (embedded below in
  namespace `InitPgvector`).

The embedding models Python values decoded from JSON with the inductive
type `Json`, and Python's dynamic failures (AttributeError, TypeError,
KeyError, IndexError, JSONDecodeError, urllib HTTPError/URLError) with
`PyErr`.  Stateful behaviour (Secrets Manager calls, the outbound HTTP
PATCH, log lines) is modelled as an explicit effect trace: each embedded
handler returns a `Res α`, a trace of `Effect`s together with an
`Except PyErr α` outcome.  External services (Secrets Manager, the HTTP
endpoint, `json.loads`) are parameters of the embedding (`World`,
`parse`), so the theorems quantify over every possible behaviour of those
services.
-/

/-- A JSON value, as produced by Python's `json.loads`.  Numbers are
modelled as integers (no claim depends on non-integral numbers).  Objects
are association lists; `json.loads` produces dicts whose keys are unique,
with the last occurrence winning when a document repeats a key, so lookups
below take the last matching binding. -/
inductive Json where
  | null : Json
  | bool : Bool → Json
  | num : Int → Json
  | str : String → Json
  | arr : List Json → Json
  | obj : List (String × Json) → Json

/-- Python exceptions that the embedded code can raise, plus the urllib
errors surfaced by the HTTP layer. -/
inductive PyErr where
  | attributeError : PyErr
  | typeError : PyErr
  | keyError : PyErr
  | indexError : PyErr
  | jsonDecodeError : PyErr
  | httpError : Int → String → PyErr
  | urlError : String → PyErr
deriving DecidableEq

/-- Python truthiness of a JSON-decoded value (`if not x`). -/
def Json.truthy : Json → Bool
  | Json.null => false
  | Json.bool b => b
  | Json.num n => n != 0
  | Json.str s => s != ""
  | Json.arr xs => !xs.isEmpty
  | Json.obj kvs => !kvs.isEmpty

/-- Truthiness of an optional value (`none` models Python `None`). -/
def pyTruthyOpt : Option Json → Bool
  | none => false
  | some v => v.truthy

/-- Dict lookup on the association list of an object: last binding wins
(matching the dict that `json.loads` builds by successive assignment). -/
def Json.objLookup (kvs : List (String × Json)) (k : String) : Option Json :=
  match kvs.reverse.find? (fun p => p.1 = k) with
  | some p => some p.2
  | none => none

/-- Python `x.get(k)`: dict lookup returning `None` when absent;
raises AttributeError when `x` is not a dict. -/
def pyGet (j : Json) (k : String) : Except PyErr (Option Json) :=
  match j with
  | Json.obj kvs => Except.ok (Json.objLookup kvs k)
  | _ => Except.error PyErr.attributeError

/-- Python `x.get(k, d)`: the default is used only when the key is absent
(a key bound to `null` yields `null`, not the default). -/
def pyGetD (j : Json) (k : String) (d : Json) : Except PyErr Json :=
  match pyGet j k with
  | Except.ok (some v) => Except.ok v
  | Except.ok none => Except.ok d
  | Except.error e => Except.error e

/-- Python `x[0]`: first element of a list (IndexError when empty),
first character of a string, KeyError on a JSON-decoded dict (its keys
are strings, never the integer 0), TypeError otherwise. -/
def pyIndex0 (j : Json) : Except PyErr Json :=
  match j with
  | Json.arr [] => Except.error PyErr.indexError
  | Json.arr (x :: _) => Except.ok x
  | Json.str s =>
    match s.toList with
    | [] => Except.error PyErr.indexError
    | c :: _ => Except.ok (Json.str (String.mk [c]))
  | Json.obj _ => Except.error PyErr.keyError
  | _ => Except.error PyErr.typeError

/-- Python iteration `for x in j`: the elements of a list, the characters
of a string, the keys of a dict, TypeError otherwise. -/
def pyIter (j : Json) : Except PyErr (List Json) :=
  match j with
  | Json.arr xs => Except.ok xs
  | Json.str s => Except.ok (s.toList.map (fun c => Json.str (String.mk [c])))
  | Json.obj kvs => Except.ok (kvs.map (fun p => Json.str p.1))
  | _ => Except.error PyErr.typeError

/-- Python `len(j)`: sized for lists, strings and dicts; TypeError
otherwise. -/
def pyLen (j : Json) : Except PyErr Nat :=
  match j with
  | Json.arr xs => Except.ok xs.length
  | Json.str s => Except.ok s.length
  | Json.obj kvs => Except.ok kvs.length
  | _ => Except.error PyErr.typeError

/-- `listIsPrefixOf sub l`: `sub` is a prefix of `l`. -/
def listIsPrefixOf {α : Type} [DecidableEq α] : List α → List α → Bool
  | [], _ => true
  | _ :: _, [] => false
  | a :: as, b :: bs => a = b && listIsPrefixOf as bs

/-- `listIsInfixOf sub l`: `sub` occurs contiguously inside `l`. -/
def listIsInfixOf {α : Type} [DecidableEq α] (sub : List α) : List α → Bool
  | [] => sub.isEmpty
  | x :: xs => listIsPrefixOf sub (x :: xs) || listIsInfixOf sub xs

/-- Python `s in j` for a string literal `s`: key membership for dicts,
element equality for lists (a str only ever equals a str), substring test
for strings, TypeError otherwise. -/
def pyInStr (s : String) (j : Json) : Except PyErr Bool :=
  match j with
  | Json.obj kvs => Except.ok (kvs.any (fun p => p.1 = s))
  | Json.arr xs =>
    Except.ok (xs.any (fun v => match v with | Json.str t => t = s | _ => false))
  | Json.str t => Except.ok (listIsInfixOf s.toList t.toList)
  | _ => Except.error PyErr.typeError

/-- Split a character list at every occurrence of `sep`. -/
def splitOnChar (sep : Char) : List Char → List (List Char)
  | [] => [[]]
  | x :: xs =>
    let rest := splitOnChar sep xs
    if x = sep then [] :: rest
    else
      match rest with
      | r :: rs => (x :: r) :: rs
      | [] => [[x]]

/-- `pathlib.PurePosixPath(p).name`: the final path component, with empty
and `.` components dropped (as pathlib's parsing does). -/
def pathName (p : String) : String :=
  let comps := (splitOnChar '/' p.toList).filter (fun c => !c.isEmpty && c ≠ ['.'])
  String.mk (comps.getLast?.getD [])

/-- `pathlib` stem of a bare file name, following CPython's
implementation: `i = name.rfind('.')`, and the name is cut at `i` only
when `0 < i < len(name) - 1`, otherwise returned whole (`"bar.txt"`
becomes `"bar"`; `".txt"`, `"foo."`, `"a.b."` and `"..."` are left
whole). -/
def stemOfName (name : String) : String :=
  let cs := name.toList
  match ((List.range cs.length).filter (fun i => cs.getD i ' ' = '.')).getLast? with
  | some i => if 0 < i ∧ i + 1 < cs.length then String.mk (cs.take i) else name
  | none => name

/-- `pathlib.PurePosixPath(p).stem`: file name of the last component
without its extension (the lambda runs on Linux, so paths are POSIX). -/
def pathStem (p : String) : String := stemOfName (pathName p)

namespace DLQHandler

/-- The module-level configuration of `eventbridge_dlq_handler.py`:
`ALB_BASE_URL = os.environ["ALB_BASE_URL"]` and
`DOCS_API_PATH = os.environ.get("DOCS_API_PATH", "/api/documents")`. -/
structure Config where
  ALB_BASE_URL : String
  DOCS_API_PATH : String

/-- The outbound HTTP PATCH request assembled by `patch_status`. -/
structure PatchRequest where
  url : String
  method : String
  body : String
  headers : List (String × String)
  timeout : Nat
deriving DecidableEq

/-- Outcome of `urllib.request.urlopen` on a PATCH request: a response
(urlopen returns), an `HTTPError` (non-2xx), or a `URLError` (network
failure). -/
inductive PatchOutcome where
  | success : Int → String → PatchOutcome
  | httpErr : Int → String → PatchOutcome
  | urlErr : String → PatchOutcome

/-- Observable effects of one invocation of the DLQ handler: the two
Secrets Manager calls, the outbound HTTP PATCH, and the log lines (the
embedding records each log call's message string; structured kwargs are
dropped, but any expression evaluated to build them — such as
`len(records)` — is still evaluated, and can raise, in the embedding). -/
inductive Effect where
  | fetchIngestionToken : Effect
  | fetchOriginSecret : Effect
  | httpPatch : PatchRequest → Effect
  | logInfo : String → Effect
  | logError : String → Effect
  | logException : String → Effect

/-- The external services an invocation interacts with: the two secrets
(outcome of the Secrets Manager fetches) and the HTTP endpoint's response
to each possible PATCH request. -/
structure World where
  ingestionToken : Except PyErr String
  originSecret : Except PyErr String
  patchResponse : PatchRequest → PatchOutcome

/-- Result of running a piece of the handler: the effect trace it emitted,
and its outcome (normal return or propagated exception). -/
structure Res (α : Type) where
  trace : List Effect
  out : Except PyErr α

/-- The environment map built by `get_key_and_event_type`'s dict
comprehension `{item.get("name"): item.get("value") for item in env_list}`.
Each pair is (key, value) where either side is `none` when the item lacks
the field (Python `None`).  A list- or dict-valued name is unhashable and
raises TypeError at insertion, per CPython's evaluation order (key
expression, then value expression, then insertion). -/
def buildEnvMap : List Json → Except PyErr (List (Option Json × Option Json))
  | [] => Except.ok []
  | item :: rest => do
    let n ← pyGet item "name"
    let v ← pyGet item "value"
    match n with
    | some (Json.arr _) => Except.error PyErr.typeError
    | some (Json.obj _) => Except.error PyErr.typeError
    | _ => do
      let tail ← buildEnvMap rest
      Except.ok ((n, v) :: tail)

/-- Does this env-map key equal the Python string `k`?  Only a string key
can (`None`, numbers etc. never equal a str). -/
def isNameStr (n : Option Json) (k : String) : Bool :=
  match n with
  | some (Json.str s) => s = k
  | _ => false

/-- `env_map.get(k)` for a string key `k`: the value of the last insertion
under that key (later items of the comprehension overwrite earlier ones),
or `None` when absent. -/
def envMapGet (m : List (Option Json × Option Json)) (k : String) : Option Json :=
  match m.reverse.find? (fun p => isNameStr p.1 k) with
  | some p => p.2
  | none => none

/-- `get_key_and_event_type(overrides)`:
returns `(None, None)` when `overrides` is falsy, otherwise reads
`overrides[0].get("environment", [])`, builds the env map, and returns
`(env_map.get("S3_OBJECT_KEY"), env_map.get("EVENT_TYPE"))`. -/
def get_key_and_event_type (overrides : Json) : Except PyErr (Option Json × Option Json) :=
  if overrides.truthy = false then Except.ok (none, none)
  else do
    let first ← pyIndex0 overrides
    let env_list ← pyGetD first "environment" (Json.arr [])
    let items ← pyIter env_list
    let env_map ← buildEnvMap items
    Except.ok (envMapGet env_map "S3_OBJECT_KEY", envMapGet env_map "EVENT_TYPE")

/-- `status_from_event_type(event_type)`: `"Object Created"` maps to
`"failed"`, `"Object Deleted"` to `"delete_failed"`, anything else
(including `None` and non-strings, which never compare equal to those
strings in Python) to `None`. -/
def status_from_event_type (event_type : Option Json) : Option String :=
  match event_type with
  | some (Json.str s) =>
    if s = "Object Created" then some "failed"
    else if s = "Object Deleted" then some "delete_failed"
    else none
  | _ => none

/-- `json.dumps({"status": status})` for the status strings the handler
uses (no characters needing escapes). -/
def dumpsStatus (status : String) : String :=
  "\x7b\"status\": \"" ++ status ++ "\"\x7d"

/-- `patch_status(document_id, status, token, origin_secret)`: builds the
PATCH request to `{ALB_BASE_URL}{DOCS_API_PATH}/{document_id}` with body
`json.dumps({"status": status})` and the three headers, sends it, logs the
response, and re-raises `HTTPError`/`URLError` after logging. -/
def patch_status (cfg : Config) (w : World) (document_id status token origin_secret : String) : Res Unit :=
  let url := cfg.ALB_BASE_URL ++ cfg.DOCS_API_PATH ++ "/" ++ document_id
  let req : PatchRequest :=
    { url := url
      method := "PATCH"
      body := dumpsStatus status
      headers := [("Content-Type", "application/json"), ("x-api-token", token),
                  ("X-Origin-Verify", origin_secret)]
      timeout := 30 }
  match w.patchResponse req with
  | PatchOutcome.success _ _ =>
    ⟨[Effect.logInfo "Patching document status via management-api",
      Effect.httpPatch req,
      Effect.logInfo "Patch status response"], Except.ok ()⟩
  | PatchOutcome.httpErr c b =>
    ⟨[Effect.logInfo "Patching document status via management-api",
      Effect.httpPatch req,
      Effect.logError "HTTPError while patching document status"],
     Except.error (PyErr.httpError c b)⟩
  | PatchOutcome.urlErr r =>
    ⟨[Effect.logInfo "Patching document status via management-api",
      Effect.httpPatch req,
      Effect.logError "URLError while patching document status"],
     Except.error (PyErr.urlError r)⟩

/-- The extraction pipeline of `handle_run_task_dlq`:
`get_key_and_event_type(payload.get("containerOverrides", []))`. -/
def runTaskExtract (payload : Json) : Except PyErr (Option Json × Option Json) := do
  let co ← pyGetD payload "containerOverrides" (Json.arr [])
  get_key_and_event_type co

/-- The extraction pipeline of `handle_ecs_task_failure`:
`detail = payload.get("detail", {})`, then
`get_key_and_event_type(detail.get("overrides", {}).get("containerOverrides", []))`. -/
def ecsExtract (payload : Json) : Except PyErr (Option Json × Option Json) := do
  let detail ← pyGetD payload "detail" (Json.obj [])
  let ovs ← pyGetD detail "overrides" (Json.obj [])
  let co ← pyGetD ovs "containerOverrides" (Json.arr [])
  get_key_and_event_type co

/-- The part of `handle_run_task_dlq` / `handle_ecs_task_failure` after
extraction (the two functions are line-for-line identical there, apart
from the log messages): skip when key or event type is falsy, skip when
the event type is unrecognized, otherwise compute
`document_id = Path(key).stem` (`Path(key)` raises TypeError when the
truthy key is not a string), log, and call `patch_status`. -/
def afterExtract (cfg : Config) (w : World) (token origin_secret : String)
    (ext : Except PyErr (Option Json × Option Json))
    (msgMissing msgUnknown msgHandling : String) : Res Unit :=
  match ext with
  | Except.error e => ⟨[], Except.error e⟩
  | Except.ok (key, event_type) =>
    if !(pyTruthyOpt key) || !(pyTruthyOpt event_type) then
      ⟨[Effect.logError msgMissing], Except.ok ()⟩
    else
      match status_from_event_type event_type with
      | none => ⟨[Effect.logError msgUnknown], Except.ok ()⟩
      | some status =>
        match key with
        | some (Json.str k) =>
          let r := patch_status cfg w (pathStem k) status token origin_secret
          ⟨Effect.logInfo msgHandling :: r.trace, r.out⟩
        | _ => ⟨[], Except.error PyErr.typeError⟩

/-- `handle_run_task_dlq(payload, token, origin_secret)`. -/
def handle_run_task_dlq (cfg : Config) (w : World) (payload : Json) (token origin_secret : String) : Res Unit :=
  afterExtract cfg w token origin_secret (runTaskExtract payload)
    "Missing S3_OBJECT_KEY or EVENT_TYPE in RunTask payload; skipping"
    "Unknown EVENT_TYPE in RunTask payload; skipping"
    "Handling RunTask DLQ message"

/-- `handle_ecs_task_failure(payload, token, origin_secret)`. -/
def handle_ecs_task_failure (cfg : Config) (w : World) (payload : Json) (token origin_secret : String) : Res Unit :=
  afterExtract cfg w token origin_secret (ecsExtract payload)
    "Missing S3_OBJECT_KEY or EVENT_TYPE in ECS detail; skipping"
    "Unknown EVENT_TYPE in ECS detail; skipping"
    "Handling ECS Task failure event"

/-- `get_ingestion_token()`: logs, fetches the ingestion API token, logs
success, or logs the exception and re-raises. -/
def get_ingestion_token (w : World) : Res String :=
  match w.ingestionToken with
  | Except.ok t =>
    ⟨[Effect.logInfo "Fetching ingestion API token from Secrets Manager",
      Effect.fetchIngestionToken,
      Effect.logInfo "Successfully fetched ingestion API token"], Except.ok t⟩
  | Except.error e =>
    ⟨[Effect.logInfo "Fetching ingestion API token from Secrets Manager",
      Effect.fetchIngestionToken,
      Effect.logException "Failed to fetch ingestion API token from Secrets Manager"],
     Except.error e⟩

/-- `get_origin_verify_secret()`: same shape for the Origin Verify
secret. -/
def get_origin_verify_secret (w : World) : Res String :=
  match w.originSecret with
  | Except.ok t =>
    ⟨[Effect.logInfo "Fetching Origin Verify Secret token from Secrets Manager",
      Effect.fetchOriginSecret,
      Effect.logInfo "Successfully fetched Origin Verify Secret"], Except.ok t⟩
  | Except.error e =>
    ⟨[Effect.logInfo "Fetching Origin Verify Secret token from Secrets Manager",
      Effect.fetchOriginSecret,
      Effect.logException "Failed to fetch Origin Verify Secret from Secrets Manager"],
     Except.error e⟩

/-- The inline classification of the record loop in `handler`:
`detail_type = payload.get("detail-type")` selects the ECS branch when it
equals `"ECS Task State Change"`; otherwise
`"containerOverrides" in payload` selects the run-task branch; otherwise
the shape is unrecognized.  `payload.get` raises AttributeError when the
parsed payload is not a dict. -/
inductive Branch where
  | ecs : Branch
  | runTask : Branch
  | unrecognized : Branch
deriving DecidableEq

/-- Which of the three branches the record loop takes on `payload`
(or the exception it raises while deciding). -/
def classify (payload : Json) : Except PyErr Branch := do
  let dt ← pyGet payload "detail-type"
  let isEcs : Bool := match dt with
    | some (Json.str s) => s = "ECS Task State Change"
    | _ => false
  if isEcs then Except.ok Branch.ecs
  else do
    let hasKey ← pyInStr "containerOverrides" payload
    if hasKey then Except.ok Branch.runTask else Except.ok Branch.unrecognized

/-- One iteration of the record loop in `handler`:
`body = record.get("body", "")`, `payload = json.loads(body)` (only
`json.JSONDecodeError` is caught — `json.loads` of a non-string raises
TypeError, which propagates), then classify and dispatch.  `parse`
models `json.loads` on strings. -/
def processRecord (cfg : Config) (w : World) (parse : String → Except Unit Json)
    (token origin_secret : String) (record : Json) : Res Unit :=
  match pyGetD record "body" (Json.str "") with
  | Except.error e => ⟨[], Except.error e⟩
  | Except.ok (Json.str s) =>
    match parse s with
    | Except.error _ => ⟨[Effect.logError "Bad JSON body in SQS message; skipping"], Except.ok ()⟩
    | Except.ok payload =>
      match classify payload with
      | Except.error e => ⟨[], Except.error e⟩
      | Except.ok Branch.ecs => handle_ecs_task_failure cfg w payload token origin_secret
      | Except.ok Branch.runTask => handle_run_task_dlq cfg w payload token origin_secret
      | Except.ok Branch.unrecognized =>
        ⟨[Effect.logError "Unrecognized payload shape; skipping"], Except.ok ()⟩
  | Except.ok _ => ⟨[], Except.error PyErr.typeError⟩

/-- The `for record in records` loop: records are processed sequentially;
a record's propagated exception ends the loop (and the invocation) there. -/
def runRecords (cfg : Config) (w : World) (parse : String → Except Unit Json)
    (token origin_secret : String) : List Json → Res Unit
  | [] => ⟨[], Except.ok ()⟩
  | r :: rs =>
    let first := processRecord cfg w parse token origin_secret r
    match first.out with
    | Except.error e => ⟨first.trace, Except.error e⟩
    | Except.ok _ =>
      let rest := runRecords cfg w parse token origin_secret rs
      ⟨first.trace ++ rest.trace, rest.out⟩

/-- `handler(event, context)`: reads `event.get("Records", [])`, logs the
invocation (evaluating `len(records)`, which raises TypeError on an
unsized value), returns when `records` is falsy, fetches the two secrets
(each failure is logged and re-raised), and runs the record loop. -/
def handler (cfg : Config) (w : World) (parse : String → Except Unit Json)
    (event : Json) : Res Unit :=
  match pyGetD event "Records" (Json.arr []) with
  | Except.error e => ⟨[], Except.error e⟩
  | Except.ok records =>
    match pyLen records with
    | Except.error e => ⟨[], Except.error e⟩
    | Except.ok _ =>
      let pre : List Effect := [Effect.logInfo "Status DLQ Lambda invocation received"]
      if records.truthy = false then
        ⟨pre ++ [Effect.logInfo "No records in event; nothing to process"], Except.ok ()⟩
      else
        let rt := get_ingestion_token w
        match rt.out with
        | Except.error e =>
          ⟨pre ++ rt.trace ++ [Effect.logException "Aborting batch: could not fetch ingestion token"],
           Except.error e⟩
        | Except.ok token =>
          let ro := get_origin_verify_secret w
          match ro.out with
          | Except.error e =>
            ⟨pre ++ rt.trace ++ ro.trace ++
               [Effect.logException "Aborting batch: could not fetch Origin Verify Secret"],
             Except.error e⟩
          | Except.ok origin_secret =>
            match pyIter records with
            | Except.error e => ⟨pre ++ rt.trace ++ ro.trace, Except.error e⟩
            | Except.ok rs =>
              let rr := runRecords cfg w parse token origin_secret rs
              ⟨pre ++ rt.trace ++ ro.trace ++ rr.trace, rr.out⟩

/-- The PATCH requests actually sent in a trace, in order. -/
def patchesOf (tr : List Effect) : List PatchRequest :=
  tr.filterMap (fun e => match e with | Effect.httpPatch r => some r | _ => none)

/-- Number of ingestion-token Secrets Manager calls in a trace. -/
def countFetchI (tr : List Effect) : Nat :=
  (tr.filter (fun e => match e with | Effect.fetchIngestionToken => true | _ => false)).length

/-- Number of Origin-Verify Secrets Manager calls in a trace. -/
def countFetchO (tr : List Effect) : Nat :=
  (tr.filter (fun e => match e with | Effect.fetchOriginSecret => true | _ => false)).length

end DLQHandler

namespace InitPgvector

/-- Environment configuration read by `init-pgvector`'s `handler`. -/
structure Env where
  DB_PASSWORD_SECRET_ARN : String
  DB_ENDPOINT : String
  DB_NAME : String
  DB_USER : String

/-- The arguments the handler passes to `psycopg2.connect`. -/
structure ConnectParams where
  host : String
  port : Nat
  database : String
  user : String
  password : String
  connect_timeout : Nat
deriving DecidableEq

/-- Observable effects of one invocation of the initializer: the Secrets
Manager fetch, the connection attempt, the statement execution (the
cursor's creation and closure inside the `with` block are folded into
this step), the commit, and the connection close. -/
inductive Effect where
  | getSecretValue : String → Effect
  | connect : ConnectParams → Effect
  | execute : String → Effect
  | commit : Effect
  | closeConn : Effect
deriving DecidableEq

/-- Outcomes of the external calls the initializer makes.  `conn.close()`
is modelled as always succeeding. -/
structure World where
  secretValue : String → Except PyErr String
  connectResult : ConnectParams → Except PyErr Unit
  executeResult : String → Except PyErr Unit
  commitResult : Except PyErr Unit

/-- Result of an invocation: the effect trace and the outcome. -/
structure Res (α : Type) where
  trace : List Effect
  out : Except PyErr α

/-- The single DDL statement the handler executes. -/
def sqlStmt : String := "CREATE EXTENSION IF NOT EXISTS vector;"

/-- `handler(event, context)` of `init-pgvector`: fetch the password,
connect (`connect_timeout=30`, `port=5432`), then
`try: execute; commit finally: close`.  Nothing is caught: any failure
propagates, and the `finally` closes the connection whenever one was
established. -/
def handler (env : Env) (w : World) : Res Unit :=
  match w.secretValue env.DB_PASSWORD_SECRET_ARN with
  | Except.error e => ⟨[Effect.getSecretValue env.DB_PASSWORD_SECRET_ARN], Except.error e⟩
  | Except.ok password =>
    let p : ConnectParams :=
      { host := env.DB_ENDPOINT
        port := 5432
        database := env.DB_NAME
        user := env.DB_USER
        password := password
        connect_timeout := 30 }
    match w.connectResult p with
    | Except.error e =>
      ⟨[Effect.getSecretValue env.DB_PASSWORD_SECRET_ARN, Effect.connect p], Except.error e⟩
    | Except.ok _ =>
      match w.executeResult sqlStmt with
      | Except.error e =>
        ⟨[Effect.getSecretValue env.DB_PASSWORD_SECRET_ARN, Effect.connect p,
          Effect.execute sqlStmt, Effect.closeConn], Except.error e⟩
      | Except.ok _ =>
        match w.commitResult with
        | Except.error e =>
          ⟨[Effect.getSecretValue env.DB_PASSWORD_SECRET_ARN, Effect.connect p,
            Effect.execute sqlStmt, Effect.commit, Effect.closeConn], Except.error e⟩
        | Except.ok _ =>
          ⟨[Effect.getSecretValue env.DB_PASSWORD_SECRET_ARN, Effect.connect p,
            Effect.execute sqlStmt, Effect.commit, Effect.closeConn], Except.ok ()⟩

/-- The connect parameters the handler derives from its environment and
the fetched password. -/
def paramsOf (env : Env) (password : String) : ConnectParams :=
  { host := env.DB_ENDPOINT
    port := 5432
    database := env.DB_NAME
    user := env.DB_USER
    password := password
    connect_timeout := 30 }

/-- A concrete environment for the initializer. -/
def env0 : Env :=
  { DB_PASSWORD_SECRET_ARN := "arn:pw"
    DB_ENDPOINT := "db.internal"
    DB_NAME := "docs"
    DB_USER := "admin" }

/-- A world in which every external call of the initializer succeeds. -/
def wOk : World :=
  { secretValue := fun _ => Except.ok "pw"
    connectResult := fun _ => Except.ok ()
    executeResult := fun _ => Except.ok ()
    commitResult := Except.ok () }

end InitPgvector

namespace DLQHandler

/-- Spec-side reading (follows the words of claim C1, not the source): the
environment list carries an S3 object key — an item named `S3_OBJECT_KEY`
whose value is a nonempty string. -/
def envCarriesKey (env : Json) : Bool :=
  match env with
  | Json.arr items => items.any (fun it =>
      match it with
      | Json.obj kvs =>
        (match Json.objLookup kvs "name", Json.objLookup kvs "value" with
         | some (Json.str n), some (Json.str v) => n = "S3_OBJECT_KEY" && v != ""
         | _, _ => false)
      | _ => false)
  | _ => false

/-- Spec-side reading (claim C1's words): the environment list carries a
recognized event type — an item named `EVENT_TYPE` whose value is
`Object Created` or `Object Deleted`. -/
def envCarriesEvent (env : Json) : Bool :=
  match env with
  | Json.arr items => items.any (fun it =>
      match it with
      | Json.obj kvs =>
        (match Json.objLookup kvs "name", Json.objLookup kvs "value" with
         | some (Json.str n), some v =>
           n = "EVENT_TYPE" && (status_from_event_type (some v)).isSome
         | _, _ => false)
      | _ => false)
  | _ => false

/-- Spec-side reading of claim C1's "carries both values in some container
override's environment list", for an ECS-shaped payload: SOME element of
`detail.overrides.containerOverrides` has an environment list carrying
both an S3 object key and a recognized event type. -/
def specSomeOverrideCarriesBoth (payload : Json) : Bool :=
  match payload with
  | Json.obj kvs =>
    (match Json.objLookup kvs "detail" with
     | some (Json.obj dkvs) =>
       (match Json.objLookup dkvs "overrides" with
        | some (Json.obj okvs) =>
          (match Json.objLookup okvs "containerOverrides" with
           | some (Json.arr ovs) => ovs.any (fun ov =>
               match ov with
               | Json.obj ovkvs =>
                 (match Json.objLookup ovkvs "environment" with
                  | some env => envCarriesKey env && envCarriesEvent env
                  | none => false)
               | _ => false)
           | _ => false)
        | _ => false)
     | _ => false)
  | _ => false

/-- Environment item binding `S3_OBJECT_KEY` to `foo/bar.txt`. -/
def envItemKey : Json :=
  Json.obj [("name", Json.str "S3_OBJECT_KEY"), ("value", Json.str "foo/bar.txt")]

/-- Environment item binding `EVENT_TYPE` to `Object Created`. -/
def envItemEvent : Json :=
  Json.obj [("name", Json.str "EVENT_TYPE"), ("value", Json.str "Object Created")]

/-- A container override whose environment list carries both fields. -/
def overrideWithBoth : Json :=
  Json.obj [("environment", Json.arr [envItemKey, envItemEvent])]

/-- A container override with an empty environment list. -/
def overrideEmpty : Json := Json.obj [("environment", Json.arr [])]

/-- ECS-shaped payload whose second container override carries both fields
while the first carries neither. -/
def payloadSecondOverride : Json :=
  Json.obj [("detail-type", Json.str "ECS Task State Change"),
    ("detail", Json.obj [("overrides", Json.obj [("containerOverrides",
      Json.arr [overrideEmpty, overrideWithBoth])])])]

/-- ECS-shaped payload whose first (only) container override carries both
fields. -/
def payloadFirstOverride : Json :=
  Json.obj [("detail-type", Json.str "ECS Task State Change"),
    ("detail", Json.obj [("overrides", Json.obj [("containerOverrides",
      Json.arr [overrideWithBoth])])])]

/-- A fixed configuration for concrete evaluations. -/
def cfg0 : Config := { ALB_BASE_URL := "http://alb.internal", DOCS_API_PATH := "/api/documents" }

/-- A world where both secret fetches succeed and every PATCH succeeds. -/
def w0 : World :=
  { ingestionToken := Except.ok "tok"
    originSecret := Except.ok "sec"
    patchResponse := fun _ => PatchOutcome.success 200 "ok" }

/-- Environment item binding `EVENT_TYPE` to an unrecognized value. -/
def envItemUnknownEvent : Json :=
  Json.obj [("name", Json.str "EVENT_TYPE"), ("value", Json.str "Object Restored")]

/-- A container override carrying a key and an unrecognized event type. -/
def overrideUnknownEvent : Json :=
  Json.obj [("environment", Json.arr [envItemKey, envItemUnknownEvent])]

/-- Run-task payload whose single override carries a key and an
unrecognized event type. -/
def payloadUnknownEvent : Json :=
  Json.obj [("containerOverrides", Json.arr [overrideUnknownEvent])]

/-- Run-task payload with two overrides: the first carries neither field,
the second carries both. -/
def payloadRunTwoOverrides : Json :=
  Json.obj [("containerOverrides", Json.arr [overrideEmpty, overrideWithBoth])]

/-- A record whose body is not valid JSON (under `parse0`). -/
def recordBadJson : Json := Json.obj [("body", Json.str "nope")]

/-- A record whose body parses (under `parse0`) to `payloadFirstOverride`. -/
def recordEcsGood : Json := Json.obj [("body", Json.str "ecs")]

/-- A concrete stand-in for `json.loads`: `"ecs"` decodes to
`payloadFirstOverride`, everything else fails to parse. -/
def parse0 : String → Except Unit Json := fun s =>
  if s = "ecs" then Except.ok payloadFirstOverride else Except.error ()

/-- A world where the secrets succeed but every PATCH fails with a
network error. -/
def wFail : World :=
  { ingestionToken := Except.ok "tok"
    originSecret := Except.ok "sec"
    patchResponse := fun _ => PatchOutcome.urlErr "connection refused" }

/-- A record whose body is the JSON text of an array (under `parseArr`). -/
def recordArrayBody : Json := Json.obj [("body", Json.str "[]")]

/-- A concrete stand-in for `json.loads` mapping `"[]"` to the empty
JSON array. -/
def parseArr : String → Except Unit Json := fun s =>
  if s = "[]" then Except.ok (Json.arr []) else Except.error ()

end DLQHandler


namespace DLQHandler

lemma patch_status_patchesOf (cfg : Config) (w : World) (d st token sec : String) :
    patchesOf (patch_status cfg w d st token sec).trace =
      [{ url := cfg.ALB_BASE_URL ++ cfg.DOCS_API_PATH ++ "/" ++ d
         method := "PATCH"
         body := dumpsStatus st
         headers := [("Content-Type", "application/json"), ("x-api-token", token),
                     ("X-Origin-Verify", sec)]
         timeout := 30 }] := by
  unfold patch_status
  dsimp only
  split <;> simp [patchesOf]

lemma status_eq_cases (et : Option Json) (st : String)
    (h : status_from_event_type et = some st) :
    et = some (Json.str "Object Created") ∨ et = some (Json.str "Object Deleted") := by
  cases et with
  | none => simp [status_from_event_type] at h
  | some v =>
    cases v with
    | str s =>
      by_cases h1 : s = "Object Created"
      · subst h1; left; rfl
      · by_cases h2 : s = "Object Deleted"
        · subst h2; right; rfl
        · simp [status_from_event_type, h1, h2] at h
    | null => simp [status_from_event_type] at h
    | bool b => simp [status_from_event_type] at h
    | num n => simp [status_from_event_type] at h
    | arr xs => simp [status_from_event_type] at h
    | obj kvs => simp [status_from_event_type] at h

lemma truthy_of_status_isSome (et : Option Json)
    (h : (status_from_event_type et).isSome = true) : pyTruthyOpt et = true := by
  rw [Option.isSome_iff_exists] at h
  obtain ⟨st, hst⟩ := h
  rcases status_eq_cases et st hst with h | h <;> subst h <;> rfl

/-- A report leaves `afterExtract` iff the extraction yielded a nonempty
string key and a recognized event type. -/
lemma afterExtract_report_iff (cfg : Config) (w : World) (token origin : String)
    (ext : Except PyErr (Option Json × Option Json)) (m1 m2 m3 : String) :
    patchesOf (afterExtract cfg w token origin ext m1 m2 m3).trace ≠ [] ↔
    ∃ s et, ext = Except.ok (some (Json.str s), et) ∧ s ≠ "" ∧
      (status_from_event_type et).isSome = true := by
  cases ext with
  | error e => simp [afterExtract, patchesOf]
  | ok ke =>
    obtain ⟨k, et⟩ := ke
    cases hk : pyTruthyOpt k with
    | false =>
      simp only [afterExtract, hk, Bool.not_false, Bool.true_or, if_true]
      constructor
      · intro h; exact absurd rfl h
      · rintro ⟨s, et2, heq, hs, hst⟩
        simp only [Except.ok.injEq, Prod.mk.injEq] at heq
        obtain ⟨rfl, rfl⟩ := heq
        simp [pyTruthyOpt, Json.truthy] at hk
        exact absurd hk hs
    | true =>
      cases he : pyTruthyOpt et with
      | false =>
        simp only [afterExtract, hk, he, Bool.not_true, Bool.not_false, Bool.or_true, if_true]
        constructor
        · intro h; exact absurd rfl h
        · rintro ⟨s, et2, heq, hs, hst⟩
          simp only [Except.ok.injEq, Prod.mk.injEq] at heq
          obtain ⟨rfl, rfl⟩ := heq
          rw [truthy_of_status_isSome et hst] at he
          exact absurd he (by simp)
      | true =>
        simp only [afterExtract, hk, he, Bool.not_true, Bool.or_self, Bool.false_eq_true,
          if_false]
        cases hst : status_from_event_type et with
        | none =>
          constructor
          · intro h; exact absurd rfl h
          · rintro ⟨s, et2, heq, hs, hsome⟩
            simp only [Except.ok.injEq, Prod.mk.injEq] at heq
            obtain ⟨rfl, rfl⟩ := heq
            rw [hst] at hsome
            exact absurd hsome (by simp)
        | some st =>
          cases k with
          | none => exact absurd hk (by simp [pyTruthyOpt])
          | some kv =>
            cases kv with
            | str s =>
              constructor
              · intro _
                refine ⟨s, et, rfl, ?_, by rw [hst]; rfl⟩
                simp only [pyTruthyOpt, Json.truthy, bne_iff_ne, ne_eq] at hk
                exact hk
              · intro _
                have hp := patch_status_patchesOf cfg w (pathStem s) st token origin
                simp only [patchesOf] at hp ⊢
                simp [List.filterMap_cons, hp]
            | null => exact absurd hk (by simp [pyTruthyOpt, Json.truthy])
            | bool b =>
              constructor
              · intro h; exact absurd rfl h
              · rintro ⟨s, et2, heq, -, -⟩
                simp only [Except.ok.injEq, Prod.mk.injEq] at heq
                exact absurd heq.1 (by simp)
            | num n =>
              constructor
              · intro h; exact absurd rfl h
              · rintro ⟨s, et2, heq, -, -⟩
                simp only [Except.ok.injEq, Prod.mk.injEq] at heq
                exact absurd heq.1 (by simp)
            | arr xs =>
              constructor
              · intro h; exact absurd rfl h
              · rintro ⟨s, et2, heq, -, -⟩
                simp only [Except.ok.injEq, Prod.mk.injEq] at heq
                exact absurd heq.1 (by simp)
            | obj kvs =>
              constructor
              · intro h; exact absurd rfl h
              · rintro ⟨s, et2, heq, -, -⟩
                simp only [Except.ok.injEq, Prod.mk.injEq] at heq
                exact absurd heq.1 (by simp)

end DLQHandler

namespace DLQHandler

/-- C1 (amended): a DLQ message yields a status report (an HTTP PATCH) if
and only if both an S3 object key (a nonempty string) and a recognized
event type are extractable from the FIRST container override's environment
list in the message's payload; in either handler shape, a payload from
which one of them is not so extractable never yields a report. -/
theorem C1_report_iff_first_override (cfg : Config) (w : World) (payload : Json)
    (token origin : String) :
    (patchesOf (handle_ecs_task_failure cfg w payload token origin).trace ≠ [] ↔
      ∃ s et, ecsExtract payload = Except.ok (some (Json.str s), et) ∧ s ≠ "" ∧
        (status_from_event_type et).isSome = true) ∧
    (patchesOf (handle_run_task_dlq cfg w payload token origin).trace ≠ [] ↔
      ∃ s et, runTaskExtract payload = Except.ok (some (Json.str s), et) ∧ s ≠ "" ∧
        (status_from_event_type et).isSome = true) :=
  ⟨afterExtract_report_iff cfg w token origin (ecsExtract payload) _ _ _,
   afterExtract_report_iff cfg w token origin (runTaskExtract payload) _ _ _⟩

/-- C1 counterexample to the claim as stated: this payload carries both an
S3 object key and a recognized event type in SOME container override's
environment list (the second of two), yet the handler issues no PATCH and
returns normally — extraction only consults the first override. -/
theorem C1_counterexample_some_override :
    specSomeOverrideCarriesBoth payloadSecondOverride = true ∧
    patchesOf (handle_ecs_task_failure cfg0 w0 payloadSecondOverride "tok" "sec").trace = [] ∧
    (handle_ecs_task_failure cfg0 w0 payloadSecondOverride "tok" "sec").out = Except.ok () :=
  ⟨rfl, rfl, rfl⟩

/-- C1 witness: a payload whose first override carries both fields does
yield a report, by the amended iff. -/
theorem C1_witness_first_override_reports :
    patchesOf (handle_ecs_task_failure cfg0 w0 payloadFirstOverride "tok" "sec").trace ≠ [] :=
  (C1_report_iff_first_override cfg0 w0 payloadFirstOverride "tok" "sec").1.mpr
    ⟨"foo/bar.txt", some (Json.str "Object Created"), rfl, by decide, rfl⟩

end DLQHandler

namespace DLQHandler

/-- C4: `Object Created` maps to status `failed`, `Object Deleted` to
`delete_failed`, any other extracted value yields no status, and in that
case the message is skipped with only a log line — no report is sent. -/
theorem C4_status_mapping (cfg : Config) (w : World) (payload : Json)
    (token origin : String) (k et : Option Json)
    (hex : runTaskExtract payload = Except.ok (k, et))
    (hk : pyTruthyOpt k = true) (he : pyTruthyOpt et = true) :
    status_from_event_type (some (Json.str "Object Created")) = some "failed" ∧
    status_from_event_type (some (Json.str "Object Deleted")) = some "delete_failed" ∧
    (∀ et2 : Option Json, et2 ≠ some (Json.str "Object Created") →
      et2 ≠ some (Json.str "Object Deleted") → status_from_event_type et2 = none) ∧
    (status_from_event_type et = none →
      handle_run_task_dlq cfg w payload token origin =
        ⟨[Effect.logError "Unknown EVENT_TYPE in RunTask payload; skipping"],
         Except.ok ()⟩) := by
  refine ⟨rfl, rfl, ?_, ?_⟩
  · intro et2 h1 h2
    cases et2 with
    | none => rfl
    | some v =>
      cases v with
      | str s =>
        simp only [status_from_event_type]
        rw [if_neg, if_neg]
        · intro hx; exact h2 (by rw [hx])
        · intro hx; exact h1 (by rw [hx])
      | null => rfl
      | bool b => rfl
      | num n => rfl
      | arr xs => rfl
      | obj kvs => rfl
  · intro hst
    simp only [handle_run_task_dlq, afterExtract, hex, hk, he, hst, Bool.not_true,
      Bool.or_self, Bool.false_eq_true, if_false]

/-- C4 witness: a run-task payload carrying key `foo/bar.txt` and event
type `Object Restored` is skipped with the unknown-event log line. -/
theorem C4_witness_unknown_event_skipped :
    handle_run_task_dlq cfg0 w0 payloadUnknownEvent "tok" "sec" =
      ⟨[Effect.logError "Unknown EVENT_TYPE in RunTask payload; skipping"], Except.ok ()⟩ :=
  (C4_status_mapping cfg0 w0 payloadUnknownEvent "tok" "sec"
    (some (Json.str "foo/bar.txt")) (some (Json.str "Object Restored")) rfl rfl rfl).2.2.2 rfl

/-- C9: extraction consults only the first container override — the tail
of the overrides list never affects the result; an empty-string value is
falsy, hence treated as missing; and whenever extraction yields a falsy
key or event type the message is skipped with only the missing-fields log
line, so fields present only in a later override are ignored. -/
theorem C9_first_override_only (cfg : Config) (w : World) (token origin : String) :
    (∀ o rest rest2, get_key_and_event_type (Json.arr (o :: rest)) =
        get_key_and_event_type (Json.arr (o :: rest2))) ∧
    (∀ o2 rest, get_key_and_event_type (Json.arr (overrideEmpty :: o2 :: rest)) =
        Except.ok (none, none)) ∧
    pyTruthyOpt (some (Json.str "")) = false ∧
    (∀ payload k et, runTaskExtract payload = Except.ok (k, et) →
      pyTruthyOpt k = false ∨ pyTruthyOpt et = false →
      handle_run_task_dlq cfg w payload token origin =
        ⟨[Effect.logError "Missing S3_OBJECT_KEY or EVENT_TYPE in RunTask payload; skipping"],
         Except.ok ()⟩) ∧
    (∀ payload k et, ecsExtract payload = Except.ok (k, et) →
      pyTruthyOpt k = false ∨ pyTruthyOpt et = false →
      handle_ecs_task_failure cfg w payload token origin =
        ⟨[Effect.logError "Missing S3_OBJECT_KEY or EVENT_TYPE in ECS detail; skipping"],
         Except.ok ()⟩) := by
  refine ⟨?_, ?_, rfl, ?_, ?_⟩
  · intro o rest rest2
    rfl
  · intro o2 rest
    rfl
  · intro payload k et hex hor
    have hcond : (!(pyTruthyOpt k) || !(pyTruthyOpt et)) = true := by
      rcases hor with h | h <;> simp [h]
    simp only [handle_run_task_dlq, afterExtract, hex, hcond, if_true]
  · intro payload k et hex hor
    have hcond : (!(pyTruthyOpt k) || !(pyTruthyOpt et)) = true := by
      rcases hor with h | h <;> simp [h]
    simp only [handle_ecs_task_failure, afterExtract, hex, hcond, if_true]

/-- C9 witness: a run-task payload whose fields live only in the second
override is skipped with the missing-fields log line. -/
theorem C9_witness_second_override_ignored :
    handle_run_task_dlq cfg0 w0 payloadRunTwoOverrides "tok" "sec" =
      ⟨[Effect.logError "Missing S3_OBJECT_KEY or EVENT_TYPE in RunTask payload; skipping"],
       Except.ok ()⟩ :=
  (C9_first_override_only cfg0 w0 "tok" "sec").2.2.2.1 payloadRunTwoOverrides none none rfl
    (Or.inl rfl)

/-- C6: a record whose body fails to parse as JSON is logged and skipped
— it contributes exactly the one log line, no exception, and the rest of
the batch is processed as if the record were not there. -/
theorem C6_bad_json_skipped (cfg : Config) (w : World) (parse : String → Except Unit Json)
    (token origin : String) (r : Json) (s : String) (rs : List Json)
    (hbody : pyGetD r "body" (Json.str "") = Except.ok (Json.str s))
    (hparse : parse s = Except.error ()) :
    processRecord cfg w parse token origin r =
      ⟨[Effect.logError "Bad JSON body in SQS message; skipping"], Except.ok ()⟩ ∧
    runRecords cfg w parse token origin (r :: rs) =
      ⟨Effect.logError "Bad JSON body in SQS message; skipping" ::
         (runRecords cfg w parse token origin rs).trace,
       (runRecords cfg w parse token origin rs).out⟩ := by
  have h1 : processRecord cfg w parse token origin r =
      ⟨[Effect.logError "Bad JSON body in SQS message; skipping"], Except.ok ()⟩ := by
    simp only [processRecord, hbody, hparse]
  refine ⟨h1, ?_⟩
  simp only [runRecords, h1, List.singleton_append]

/-- C6 witness: the concrete bad-JSON record is logged and skipped. -/
theorem C6_witness_bad_json :
    processRecord cfg0 w0 parse0 "tok" "sec" recordBadJson =
      ⟨[Effect.logError "Bad JSON body in SQS message; skipping"], Except.ok ()⟩ :=
  (C6_bad_json_skipped cfg0 w0 parse0 "tok" "sec" recordBadJson "nope" [] rfl rfl).1

/-- C10: an event without a `Records` key, or with an empty `Records`
list, returns normally after two log lines: no secret is fetched and no
HTTP request is issued. -/
theorem C10_empty_batch (cfg : Config) (w : World) (parse : String → Except Unit Json)
    (kvs : List (String × Json))
    (h : Json.objLookup kvs "Records" = none ∨
         Json.objLookup kvs "Records" = some (Json.arr [])) :
    handler cfg w parse (Json.obj kvs) =
      ⟨[Effect.logInfo "Status DLQ Lambda invocation received",
        Effect.logInfo "No records in event; nothing to process"], Except.ok ()⟩ ∧
    countFetchI (handler cfg w parse (Json.obj kvs)).trace = 0 ∧
    countFetchO (handler cfg w parse (Json.obj kvs)).trace = 0 ∧
    patchesOf (handler cfg w parse (Json.obj kvs)).trace = [] := by
  have h1 : handler cfg w parse (Json.obj kvs) =
      ⟨[Effect.logInfo "Status DLQ Lambda invocation received",
        Effect.logInfo "No records in event; nothing to process"], Except.ok ()⟩ := by
    rcases h with h | h <;>
      simp only [handler, pyGetD, pyGet, h, pyLen, Json.truthy, List.isEmpty_nil,
        Bool.not_true, if_true, List.singleton_append]
  exact ⟨h1, by rw [h1]; rfl, by rw [h1]; rfl, by rw [h1]; rfl⟩

/-- C10 witness: the empty event object. -/
theorem C10_witness_empty_event :
    handler cfg0 w0 parse0 (Json.obj []) =
      ⟨[Effect.logInfo "Status DLQ Lambda invocation received",
        Effect.logInfo "No records in event; nothing to process"], Except.ok ()⟩ :=
  (C10_empty_batch cfg0 w0 parse0 [] (Or.inl rfl)).1

end DLQHandler

namespace DLQHandler

lemma runRecords_nil (cfg : Config) (w : World) (parse : String → Except Unit Json)
    (token origin : String) :
    runRecords cfg w parse token origin [] = ⟨[], Except.ok ()⟩ := rfl

lemma runRecords_ok_append (cfg : Config) (w : World) (parse : String → Except Unit Json)
    (token origin : String) (rs1 rs2 : List Json)
    (hok : ∀ x ∈ rs1, (processRecord cfg w parse token origin x).out = Except.ok ()) :
    runRecords cfg w parse token origin (rs1 ++ rs2) =
      ⟨(runRecords cfg w parse token origin rs1).trace ++
         (runRecords cfg w parse token origin rs2).trace,
       (runRecords cfg w parse token origin rs2).out⟩ := by
  induction rs1 with
  | nil => simp [runRecords]
  | cons x xs ih =>
    have hx := hok x (List.mem_cons_self x xs)
    have hxs : ∀ y ∈ xs, (processRecord cfg w parse token origin y).out = Except.ok () :=
      fun y hy => hok y (List.mem_cons_of_mem x hy)
    simp only [List.cons_append, runRecords, hx, List.append_eq]
    rw [ih hxs]
    simp [List.append_assoc]

lemma runRecords_error_first (cfg : Config) (w : World) (parse : String → Except Unit Json)
    (token origin : String) (r : Json) (rs : List Json) (e : PyErr)
    (herr : (processRecord cfg w parse token origin r).out = Except.error e) :
    runRecords cfg w parse token origin (r :: rs) =
      ⟨(processRecord cfg w parse token origin r).trace, Except.error e⟩ := by
  simp only [runRecords, herr]

/-- Unfolding `handler` on an event carrying a nonempty `Records` list
when both secret fetches succeed. -/
lemma handler_success_unfold (cfg : Config) (w : World) (parse : String → Except Unit Json)
    (token origin : String) (L : List Json) (hne : L ≠ [])
    (hI : w.ingestionToken = Except.ok token) (hO : w.originSecret = Except.ok origin) :
    handler cfg w parse (Json.obj [("Records", Json.arr L)]) =
      ⟨[Effect.logInfo "Status DLQ Lambda invocation received",
        Effect.logInfo "Fetching ingestion API token from Secrets Manager",
        Effect.fetchIngestionToken,
        Effect.logInfo "Successfully fetched ingestion API token",
        Effect.logInfo "Fetching Origin Verify Secret token from Secrets Manager",
        Effect.fetchOriginSecret,
        Effect.logInfo "Successfully fetched Origin Verify Secret"] ++
          (runRecords cfg w parse token origin L).trace,
       (runRecords cfg w parse token origin L).out⟩ := by
  obtain ⟨a, as, rfl⟩ : ∃ a as, L = a :: as := by
    cases L with
    | nil => exact absurd rfl hne
    | cons a as => exact ⟨a, as, rfl⟩
  simp only [handler,
    show pyGetD (Json.obj [("Records", Json.arr (a :: as))]) "Records" (Json.arr []) =
      Except.ok (Json.arr (a :: as)) from rfl,
    show pyLen (Json.arr (a :: as)) = Except.ok (a :: as).length from rfl,
    show (Json.arr (a :: as)).truthy = true from rfl,
    get_ingestion_token, get_origin_verify_secret, hI, hO,
    show pyIter (Json.arr (a :: as)) = Except.ok (a :: as) from rfl]
  simp

/-- Unfolding `handler` when the ingestion-token fetch fails. -/
lemma handler_ing_fail_unfold (cfg : Config) (w : World) (parse : String → Except Unit Json)
    (L : List Json) (e : PyErr) (hne : L ≠ [])
    (hI : w.ingestionToken = Except.error e) :
    handler cfg w parse (Json.obj [("Records", Json.arr L)]) =
      ⟨[Effect.logInfo "Status DLQ Lambda invocation received",
        Effect.logInfo "Fetching ingestion API token from Secrets Manager",
        Effect.fetchIngestionToken,
        Effect.logException "Failed to fetch ingestion API token from Secrets Manager",
        Effect.logException "Aborting batch: could not fetch ingestion token"],
       Except.error e⟩ := by
  obtain ⟨a, as, rfl⟩ : ∃ a as, L = a :: as := by
    cases L with
    | nil => exact absurd rfl hne
    | cons a as => exact ⟨a, as, rfl⟩
  simp only [handler,
    show pyGetD (Json.obj [("Records", Json.arr (a :: as))]) "Records" (Json.arr []) =
      Except.ok (Json.arr (a :: as)) from rfl,
    show pyLen (Json.arr (a :: as)) = Except.ok (a :: as).length from rfl,
    show (Json.arr (a :: as)).truthy = true from rfl,
    get_ingestion_token, hI]
  simp

/-- Unfolding `handler` when the ingestion token succeeds but the
Origin Verify fetch fails. -/
lemma handler_org_fail_unfold (cfg : Config) (w : World) (parse : String → Except Unit Json)
    (token : String) (L : List Json) (e : PyErr) (hne : L ≠ [])
    (hI : w.ingestionToken = Except.ok token) (hO : w.originSecret = Except.error e) :
    handler cfg w parse (Json.obj [("Records", Json.arr L)]) =
      ⟨[Effect.logInfo "Status DLQ Lambda invocation received",
        Effect.logInfo "Fetching ingestion API token from Secrets Manager",
        Effect.fetchIngestionToken,
        Effect.logInfo "Successfully fetched ingestion API token",
        Effect.logInfo "Fetching Origin Verify Secret token from Secrets Manager",
        Effect.fetchOriginSecret,
        Effect.logException "Failed to fetch Origin Verify Secret from Secrets Manager",
        Effect.logException "Aborting batch: could not fetch Origin Verify Secret"],
       Except.error e⟩ := by
  obtain ⟨a, as, rfl⟩ : ∃ a as, L = a :: as := by
    cases L with
    | nil => exact absurd rfl hne
    | cons a as => exact ⟨a, as, rfl⟩
  simp only [handler,
    show pyGetD (Json.obj [("Records", Json.arr (a :: as))]) "Records" (Json.arr []) =
      Except.ok (Json.arr (a :: as)) from rfl,
    show pyLen (Json.arr (a :: as)) = Except.ok (a :: as).length from rfl,
    show (Json.arr (a :: as)).truthy = true from rfl,
    get_ingestion_token, get_origin_verify_secret, hI, hO]
  simp

end DLQHandler

namespace DLQHandler

lemma patch_status_no_fetch (cfg : Config) (w : World) (d st token sec : String) :
    countFetchI (patch_status cfg w d st token sec).trace = 0 ∧
    countFetchO (patch_status cfg w d st token sec).trace = 0 := by
  unfold patch_status
  dsimp only
  split <;> exact ⟨rfl, rfl⟩

lemma afterExtract_no_fetch (cfg : Config) (w : World) (token origin : String)
    (ext : Except PyErr (Option Json × Option Json)) (m1 m2 m3 : String) :
    countFetchI (afterExtract cfg w token origin ext m1 m2 m3).trace = 0 ∧
    countFetchO (afterExtract cfg w token origin ext m1 m2 m3).trace = 0 := by
  unfold afterExtract
  split
  · exact ⟨rfl, rfl⟩
  · split
    · exact ⟨rfl, rfl⟩
    · split
      · exact ⟨rfl, rfl⟩
      · split
        · obtain ⟨h1, h2⟩ := patch_status_no_fetch cfg w (pathStem _) _ token origin
          constructor
          · simpa [countFetchI, List.filter] using h1
          · simpa [countFetchO, List.filter] using h2
        · exact ⟨rfl, rfl⟩

lemma processRecord_no_fetch (cfg : Config) (w : World) (parse : String → Except Unit Json)
    (token origin : String) (r : Json) :
    countFetchI (processRecord cfg w parse token origin r).trace = 0 ∧
    countFetchO (processRecord cfg w parse token origin r).trace = 0 := by
  unfold processRecord
  split
  · exact ⟨rfl, rfl⟩
  · split
    · exact ⟨rfl, rfl⟩
    · split
      · exact ⟨rfl, rfl⟩
      · exact afterExtract_no_fetch cfg w token origin _ _ _ _
      · exact afterExtract_no_fetch cfg w token origin _ _ _ _
      · exact ⟨rfl, rfl⟩
  · exact ⟨rfl, rfl⟩

lemma countFetchI_append (t1 t2 : List Effect) :
    countFetchI (t1 ++ t2) = countFetchI t1 + countFetchI t2 := by
  simp [countFetchI, List.filter_append]

lemma countFetchO_append (t1 t2 : List Effect) :
    countFetchO (t1 ++ t2) = countFetchO t1 + countFetchO t2 := by
  simp [countFetchO, List.filter_append]

lemma runRecords_no_fetch (cfg : Config) (w : World) (parse : String → Except Unit Json)
    (token origin : String) (rs : List Json) :
    countFetchI (runRecords cfg w parse token origin rs).trace = 0 ∧
    countFetchO (runRecords cfg w parse token origin rs).trace = 0 := by
  induction rs with
  | nil => exact ⟨rfl, rfl⟩
  | cons x xs ih =>
    obtain ⟨hi, ho⟩ := processRecord_no_fetch cfg w parse token origin x
    obtain ⟨hi2, ho2⟩ := ih
    simp only [runRecords]
    split
    · exact ⟨hi, ho⟩
    · exact ⟨by rw [countFetchI_append, hi, hi2], by rw [countFetchO_append, ho, ho2]⟩

end DLQHandler

namespace DLQHandler

/-- C2: if a record's processing raises (in particular when its outbound
PATCH fails with a network error or a non-2xx response), the handler
re-raises that error and the invocation's trace ends with that record's
trace: the records after it contribute nothing — they are never processed
and no further PATCH is issued. -/
theorem C2_patch_failure_halts_batch (cfg : Config) (w : World)
    (parse : String → Except Unit Json) (token origin : String)
    (rs1 : List Json) (r : Json) (rs2 : List Json) (e : PyErr)
    (hI : w.ingestionToken = Except.ok token) (hO : w.originSecret = Except.ok origin)
    (hok : ∀ x ∈ rs1, (processRecord cfg w parse token origin x).out = Except.ok ())
    (herr : (processRecord cfg w parse token origin r).out = Except.error e) :
    handler cfg w parse (Json.obj [("Records", Json.arr (rs1 ++ r :: rs2))]) =
      ⟨[Effect.logInfo "Status DLQ Lambda invocation received",
        Effect.logInfo "Fetching ingestion API token from Secrets Manager",
        Effect.fetchIngestionToken,
        Effect.logInfo "Successfully fetched ingestion API token",
        Effect.logInfo "Fetching Origin Verify Secret token from Secrets Manager",
        Effect.fetchOriginSecret,
        Effect.logInfo "Successfully fetched Origin Verify Secret"] ++
          (runRecords cfg w parse token origin rs1).trace ++
          (processRecord cfg w parse token origin r).trace,
       Except.error e⟩ := by
  have hne : rs1 ++ r :: rs2 ≠ [] := by simp
  rw [handler_success_unfold cfg w parse token origin _ hne hI hO]
  rw [runRecords_ok_append cfg w parse token origin rs1 (r :: rs2) hok]
  rw [runRecords_error_first cfg w parse token origin r rs2 e herr]
  simp [List.append_assoc]

/-- C2 witness: two well-formed records with the network failing — the
invocation raises after the first record's PATCH; the second record
contributes nothing to the trace. -/
theorem C2_witness_network_failure :
    handler cfg0 wFail parse0
        (Json.obj [("Records", Json.arr ([] ++ recordEcsGood :: [recordEcsGood]))]) =
      ⟨[Effect.logInfo "Status DLQ Lambda invocation received",
        Effect.logInfo "Fetching ingestion API token from Secrets Manager",
        Effect.fetchIngestionToken,
        Effect.logInfo "Successfully fetched ingestion API token",
        Effect.logInfo "Fetching Origin Verify Secret token from Secrets Manager",
        Effect.fetchOriginSecret,
        Effect.logInfo "Successfully fetched Origin Verify Secret"] ++
          (runRecords cfg0 wFail parse0 "tok" "sec" []).trace ++
          (processRecord cfg0 wFail parse0 "tok" "sec" recordEcsGood).trace,
       Except.error (PyErr.urlError "connection refused")⟩ :=
  C2_patch_failure_halts_batch cfg0 wFail parse0 "tok" "sec" [] recordEcsGood [recordEcsGood]
    (PyErr.urlError "connection refused") rfl rfl
    (fun x hx => absurd hx (List.not_mem_nil x)) rfl

/-- C3: on a nonempty batch the ingestion token is fetched first, then
the Origin Verify secret, each exactly once and before any record is
processed (the record loop's trace contains no fetch); if either fetch
fails, the invocation raises that error with no record processed and no
PATCH issued. -/
theorem C3_secrets_once_before_records (cfg : Config) (w : World)
    (parse : String → Except Unit Json) (L : List Json) (hne : L ≠ []) :
    (∀ e, w.ingestionToken = Except.error e →
      handler cfg w parse (Json.obj [("Records", Json.arr L)]) =
        ⟨[Effect.logInfo "Status DLQ Lambda invocation received",
          Effect.logInfo "Fetching ingestion API token from Secrets Manager",
          Effect.fetchIngestionToken,
          Effect.logException "Failed to fetch ingestion API token from Secrets Manager",
          Effect.logException "Aborting batch: could not fetch ingestion token"],
         Except.error e⟩ ∧
      patchesOf (handler cfg w parse (Json.obj [("Records", Json.arr L)])).trace = [] ∧
      countFetchO (handler cfg w parse (Json.obj [("Records", Json.arr L)])).trace = 0) ∧
    (∀ token e, w.ingestionToken = Except.ok token → w.originSecret = Except.error e →
      handler cfg w parse (Json.obj [("Records", Json.arr L)]) =
        ⟨[Effect.logInfo "Status DLQ Lambda invocation received",
          Effect.logInfo "Fetching ingestion API token from Secrets Manager",
          Effect.fetchIngestionToken,
          Effect.logInfo "Successfully fetched ingestion API token",
          Effect.logInfo "Fetching Origin Verify Secret token from Secrets Manager",
          Effect.fetchOriginSecret,
          Effect.logException "Failed to fetch Origin Verify Secret from Secrets Manager",
          Effect.logException "Aborting batch: could not fetch Origin Verify Secret"],
         Except.error e⟩ ∧
      patchesOf (handler cfg w parse (Json.obj [("Records", Json.arr L)])).trace = []) ∧
    (∀ token origin, w.ingestionToken = Except.ok token → w.originSecret = Except.ok origin →
      countFetchI (handler cfg w parse (Json.obj [("Records", Json.arr L)])).trace = 1 ∧
      countFetchO (handler cfg w parse (Json.obj [("Records", Json.arr L)])).trace = 1 ∧
      handler cfg w parse (Json.obj [("Records", Json.arr L)]) =
        ⟨[Effect.logInfo "Status DLQ Lambda invocation received",
          Effect.logInfo "Fetching ingestion API token from Secrets Manager",
          Effect.fetchIngestionToken,
          Effect.logInfo "Successfully fetched ingestion API token",
          Effect.logInfo "Fetching Origin Verify Secret token from Secrets Manager",
          Effect.fetchOriginSecret,
          Effect.logInfo "Successfully fetched Origin Verify Secret"] ++
            (runRecords cfg w parse token origin L).trace,
         (runRecords cfg w parse token origin L).out⟩ ∧
      countFetchI (runRecords cfg w parse token origin L).trace = 0 ∧
      countFetchO (runRecords cfg w parse token origin L).trace = 0) := by
  refine ⟨?_, ?_, ?_⟩
  · intro e hI
    have h := handler_ing_fail_unfold cfg w parse L e hne hI
    exact ⟨h, by rw [h]; rfl, by rw [h]; rfl⟩
  · intro token e hI hO
    have h := handler_org_fail_unfold cfg w parse token L e hne hI hO
    exact ⟨h, by rw [h]; rfl⟩
  · intro token origin hI hO
    have h := handler_success_unfold cfg w parse token origin L hne hI hO
    obtain ⟨hri, hro⟩ := runRecords_no_fetch cfg w parse token origin L
    refine ⟨?_, ?_, h, hri, hro⟩
    · rw [h]
      dsimp only
      rw [countFetchI_append, hri]
      rfl
    · rw [h]
      dsimp only
      rw [countFetchO_append, hro]
      rfl

/-- C3 witness: on a concrete one-record batch with both fetches
succeeding, each secret is fetched exactly once. -/
theorem C3_witness_one_record :
    countFetchI (handler cfg0 w0 parse0
        (Json.obj [("Records", Json.arr [recordEcsGood])])).trace = 1 ∧
    countFetchO (handler cfg0 w0 parse0
        (Json.obj [("Records", Json.arr [recordEcsGood])])).trace = 1 :=
  let h := (C3_secrets_once_before_records cfg0 w0 parse0 [recordEcsGood]
    (by simp)).2.2 "tok" "sec" rfl rfl
  ⟨h.1, h.2.1⟩

end DLQHandler

namespace DLQHandler

lemma exceptBindOk {ε α β : Type} (a : α) (f : α → Except ε β) :
    (Except.ok a >>= f : Except ε β) = f a := rfl

lemma afterExtract_patches_shape (cfg : Config) (w : World) (token origin : String)
    (ext : Except PyErr (Option Json × Option Json)) (m1 m2 m3 : String)
    (s : String) (et : Option Json) (st : String)
    (hex : ext = Except.ok (some (Json.str s), et)) (hs : s ≠ "")
    (hst : status_from_event_type et = some st) :
    patchesOf (afterExtract cfg w token origin ext m1 m2 m3).trace =
      [{ url := cfg.ALB_BASE_URL ++ cfg.DOCS_API_PATH ++ "/" ++ pathStem s
         method := "PATCH"
         body := dumpsStatus st
         headers := [("Content-Type", "application/json"), ("x-api-token", token),
                     ("X-Origin-Verify", origin)]
         timeout := 30 }] := by
  subst hex
  have hk : pyTruthyOpt (some (Json.str s)) = true := by
    simp [pyTruthyOpt, Json.truthy, hs]
  have he : pyTruthyOpt et = true := truthy_of_status_isSome et (by rw [hst]; rfl)
  simp only [afterExtract, hk, he, Bool.not_true, Bool.or_self, Bool.false_eq_true,
    if_false, hst]
  have hp := patch_status_patchesOf cfg w (pathStem s) st token origin
  simp only [patchesOf] at hp ⊢
  simp [List.filterMap_cons, hp]

end DLQHandler

namespace DLQHandler

/-- C7: a message that yields a report (under either payload shape)
issues exactly one HTTP PATCH, to
`{ALB_BASE_URL}{DOCS_API_PATH}/{document_id}` where the document id is the
object key's filename without its extension, with body
`{"status": <status>}` and headers Content-Type/x-api-token/
X-Origin-Verify, 30-second timeout; `pathStem` is the document-id
derivation (e.g. `documents/abc123.pdf` to `abc123`). -/
theorem C7_patch_request_shape (cfg : Config) (w : World) (token origin : String)
    (payload : Json) (s : String) (et : Option Json) (st : String) :
    (runTaskExtract payload = Except.ok (some (Json.str s), et) → s ≠ "" →
      status_from_event_type et = some st →
      patchesOf (handle_run_task_dlq cfg w payload token origin).trace =
        [{ url := cfg.ALB_BASE_URL ++ cfg.DOCS_API_PATH ++ "/" ++ pathStem s
           method := "PATCH"
           body := dumpsStatus st
           headers := [("Content-Type", "application/json"), ("x-api-token", token),
                       ("X-Origin-Verify", origin)]
           timeout := 30 }]) ∧
    (ecsExtract payload = Except.ok (some (Json.str s), et) → s ≠ "" →
      status_from_event_type et = some st →
      patchesOf (handle_ecs_task_failure cfg w payload token origin).trace =
        [{ url := cfg.ALB_BASE_URL ++ cfg.DOCS_API_PATH ++ "/" ++ pathStem s
           method := "PATCH"
           body := dumpsStatus st
           headers := [("Content-Type", "application/json"), ("x-api-token", token),
                       ("X-Origin-Verify", origin)]
           timeout := 30 }]) ∧
    pathStem "documents/abc123.pdf" = "abc123" := by
  refine ⟨?_, ?_, rfl⟩
  · intro hex hs hst
    exact afterExtract_patches_shape cfg w token origin (runTaskExtract payload) _ _ _
      s et st hex hs hst
  · intro hex hs hst
    exact afterExtract_patches_shape cfg w token origin (ecsExtract payload) _ _ _
      s et st hex hs hst

/-- C7 witness: the spec's end-to-end example — an ECS-shaped payload with
key `foo/bar.txt` and event type `Object Created` produces exactly one
PATCH to `.../documents/bar` with body containing status `failed`. -/
theorem C7_witness_example_patch :
    patchesOf (handle_ecs_task_failure cfg0 w0 payloadFirstOverride "tok" "sec").trace =
      [{ url := "http://alb.internal/api/documents/bar"
         method := "PATCH"
         body := "\x7b\"status\": \"failed\"\x7d"
         headers := [("Content-Type", "application/json"), ("x-api-token", "tok"),
                     ("X-Origin-Verify", "sec")]
         timeout := 30 }] :=
  (C7_patch_request_shape cfg0 w0 "tok" "sec" payloadFirstOverride "foo/bar.txt"
    (some (Json.str "Object Created")) "failed").2.1 rfl (by decide) rfl

end DLQHandler

namespace DLQHandler

/-- C5 counterexample to the claim as stated: a parsed payload that is a
JSON array (body `"[]"` parses fine) takes none of the three branches —
`payload.get("detail-type")` raises AttributeError, which propagates, so
the message is neither dispatched nor logged-and-skipped. -/
theorem C5_counterexample_non_object_payload :
    classify (Json.arr []) = Except.error PyErr.attributeError ∧
    processRecord cfg0 w0 parseArr "tok" "sec" recordArrayBody =
      ⟨[], Except.error PyErr.attributeError⟩ :=
  ⟨rfl, rfl⟩

/-- C5 (amended): for every parsed payload that is a JSON object,
classification takes exactly one of the three branches, in order: the ECS
branch when `detail-type` equals the task-state-change kind, else the
run-task branch when a top-level `containerOverrides` key exists, else
the message is logged and skipped; and the record loop dispatches each
branch to the corresponding handler. -/
theorem C5_classification_order (kvs : List (String × Json)) :
    (∃ b, classify (Json.obj kvs) = Except.ok b) ∧
    (Json.objLookup kvs "detail-type" = some (Json.str "ECS Task State Change") →
      classify (Json.obj kvs) = Except.ok Branch.ecs) ∧
    (Json.objLookup kvs "detail-type" ≠ some (Json.str "ECS Task State Change") →
      kvs.any (fun p => p.1 = "containerOverrides") = true →
      classify (Json.obj kvs) = Except.ok Branch.runTask) ∧
    (Json.objLookup kvs "detail-type" ≠ some (Json.str "ECS Task State Change") →
      kvs.any (fun p => p.1 = "containerOverrides") = false →
      classify (Json.obj kvs) = Except.ok Branch.unrecognized) ∧
    (∀ cfg w parse token origin record s,
      pyGetD record "body" (Json.str "") = Except.ok (Json.str s) →
      parse s = Except.ok (Json.obj kvs) →
      (classify (Json.obj kvs) = Except.ok Branch.ecs →
        processRecord cfg w parse token origin record =
          handle_ecs_task_failure cfg w (Json.obj kvs) token origin) ∧
      (classify (Json.obj kvs) = Except.ok Branch.runTask →
        processRecord cfg w parse token origin record =
          handle_run_task_dlq cfg w (Json.obj kvs) token origin) ∧
      (classify (Json.obj kvs) = Except.ok Branch.unrecognized →
        processRecord cfg w parse token origin record =
          ⟨[Effect.logError "Unrecognized payload shape; skipping"], Except.ok ()⟩)) := by
  have h2 : Json.objLookup kvs "detail-type" = some (Json.str "ECS Task State Change") →
      classify (Json.obj kvs) = Except.ok Branch.ecs := by
    intro hdt
    simp [classify, pyGet, hdt, exceptBindOk]
  have hEcsOf : Json.objLookup kvs "detail-type" ≠ some (Json.str "ECS Task State Change") →
      (match Json.objLookup kvs "detail-type" with
        | some (Json.str s) => decide (s = "ECS Task State Change")
        | _ => false) = false := by
    intro hdt
    cases hv : Json.objLookup kvs "detail-type" with
    | none => rfl
    | some v =>
      cases v with
      | str s =>
        simp only [decide_eq_false_iff_not]
        intro hs
        exact hdt (by rw [hv, hs])
      | null => rfl
      | bool b => rfl
      | num n => rfl
      | arr xs => rfl
      | obj okvs => rfl
  have h3 : Json.objLookup kvs "detail-type" ≠ some (Json.str "ECS Task State Change") →
      kvs.any (fun p => p.1 = "containerOverrides") = true →
      classify (Json.obj kvs) = Except.ok Branch.runTask := by
    intro hdt hany
    simp [classify, pyGet, exceptBindOk, hEcsOf hdt, pyInStr, hany]
  have h4 : Json.objLookup kvs "detail-type" ≠ some (Json.str "ECS Task State Change") →
      kvs.any (fun p => p.1 = "containerOverrides") = false →
      classify (Json.obj kvs) = Except.ok Branch.unrecognized := by
    intro hdt hany
    simp [classify, pyGet, exceptBindOk, hEcsOf hdt, pyInStr, hany]
  refine ⟨?_, h2, h3, h4, ?_⟩
  · by_cases hdt : Json.objLookup kvs "detail-type" = some (Json.str "ECS Task State Change")
    · exact ⟨Branch.ecs, h2 hdt⟩
    · cases hany : kvs.any (fun p => p.1 = "containerOverrides") with
      | true => exact ⟨Branch.runTask, h3 hdt hany⟩
      | false => exact ⟨Branch.unrecognized, h4 hdt hany⟩
  · intro cfg w parse token origin record s hbody hparse
    refine ⟨?_, ?_, ?_⟩ <;> intro hcl <;> simp only [processRecord, hbody, hparse, hcl]

/-- C5 witness: a payload with only a top-level `containerOverrides` key
takes the run-task branch. -/
theorem C5_witness_runtask_branch :
    classify (Json.obj [("containerOverrides", Json.arr [])]) =
      Except.ok Branch.runTask :=
  (C5_classification_order [("containerOverrides", Json.arr [])]).2.2.1
    (by intro h; exact Option.noConfusion h) rfl

end DLQHandler

namespace InitPgvector

/-- C8: once a connection is established, the create-extension statement
is always executed and the connection is always released — including when
the statement or the commit raises; the commit happens on success; and
failures of secret retrieval, connection, statement execution or commit
all propagate out of the handler uncaught, as the invocation's error. -/
theorem C8_connection_released (env : Env) (w : World) :
    (∀ e, w.secretValue env.DB_PASSWORD_SECRET_ARN = Except.error e →
      handler env w =
        ⟨[Effect.getSecretValue env.DB_PASSWORD_SECRET_ARN], Except.error e⟩) ∧
    (∀ pw e, w.secretValue env.DB_PASSWORD_SECRET_ARN = Except.ok pw →
      w.connectResult (paramsOf env pw) = Except.error e →
      handler env w =
        ⟨[Effect.getSecretValue env.DB_PASSWORD_SECRET_ARN,
          Effect.connect (paramsOf env pw)], Except.error e⟩) ∧
    (∀ pw, w.secretValue env.DB_PASSWORD_SECRET_ARN = Except.ok pw →
      w.connectResult (paramsOf env pw) = Except.ok () →
      Effect.execute sqlStmt ∈ (handler env w).trace ∧
      Effect.closeConn ∈ (handler env w).trace ∧
      (∀ e, w.executeResult sqlStmt = Except.error e →
        handler env w =
          ⟨[Effect.getSecretValue env.DB_PASSWORD_SECRET_ARN,
            Effect.connect (paramsOf env pw),
            Effect.execute sqlStmt, Effect.closeConn], Except.error e⟩) ∧
      (∀ e, w.executeResult sqlStmt = Except.ok () → w.commitResult = Except.error e →
        handler env w =
          ⟨[Effect.getSecretValue env.DB_PASSWORD_SECRET_ARN,
            Effect.connect (paramsOf env pw),
            Effect.execute sqlStmt, Effect.commit, Effect.closeConn], Except.error e⟩) ∧
      (w.executeResult sqlStmt = Except.ok () → w.commitResult = Except.ok () →
        handler env w =
          ⟨[Effect.getSecretValue env.DB_PASSWORD_SECRET_ARN,
            Effect.connect (paramsOf env pw),
            Effect.execute sqlStmt, Effect.commit, Effect.closeConn], Except.ok ()⟩)) := by
  refine ⟨?_, ?_, ?_⟩
  · intro e hs
    simp only [handler, hs]
  · intro pw e hs hc
    simp only [paramsOf] at hc
    simp only [handler, hs, hc, paramsOf]
  · intro pw hs hc
    simp only [paramsOf] at hc
    have hexec : ∀ e, w.executeResult sqlStmt = Except.error e →
        handler env w =
          ⟨[Effect.getSecretValue env.DB_PASSWORD_SECRET_ARN,
            Effect.connect (paramsOf env pw),
            Effect.execute sqlStmt, Effect.closeConn], Except.error e⟩ := by
      intro e hx
      simp only [handler, hs, hc, hx, paramsOf]
    have hcommit : ∀ e, w.executeResult sqlStmt = Except.ok () → w.commitResult = Except.error e →
        handler env w =
          ⟨[Effect.getSecretValue env.DB_PASSWORD_SECRET_ARN,
            Effect.connect (paramsOf env pw),
            Effect.execute sqlStmt, Effect.commit, Effect.closeConn], Except.error e⟩ := by
      intro e hx hcm
      simp only [handler, hs, hc, hx, hcm, paramsOf]
    have hok : w.executeResult sqlStmt = Except.ok () → w.commitResult = Except.ok () →
        handler env w =
          ⟨[Effect.getSecretValue env.DB_PASSWORD_SECRET_ARN,
            Effect.connect (paramsOf env pw),
            Effect.execute sqlStmt, Effect.commit, Effect.closeConn], Except.ok ()⟩ := by
      intro hx hcm
      simp only [handler, hs, hc, hx, hcm, paramsOf]
    have hmem : Effect.execute sqlStmt ∈ (handler env w).trace ∧
        Effect.closeConn ∈ (handler env w).trace := by
      cases hx : w.executeResult sqlStmt with
      | error e => rw [hexec e hx]; exact ⟨by simp, by simp⟩
      | ok u =>
        cases u
        cases hcm : w.commitResult with
        | error e => rw [hcommit e hx hcm]; exact ⟨by simp, by simp⟩
        | ok v =>
          cases v
          rw [hok hx hcm]
          exact ⟨by simp, by simp⟩
    exact ⟨hmem.1, hmem.2, hexec, hcommit, hok⟩

/-- C8 witness: in an all-success world the handler fetches the secret,
connects, executes the statement, commits and closes, in that order. -/
theorem C8_witness_success_trace :
    handler env0 wOk =
      ⟨[Effect.getSecretValue "arn:pw", Effect.connect (paramsOf env0 "pw"),
        Effect.execute sqlStmt, Effect.commit, Effect.closeConn], Except.ok ()⟩ :=
  ((C8_connection_released env0 wOk).2.2 "pw" rfl rfl).2.2.2.2 rfl rfl

end InitPgvector
